import Mathlib

/-!
Shallow embedding of the aryn-sdk client core: the error classifier and
result envelopes (client.py, _make_raw_request and _make_request), the
async task operations (client.py, _get_task_and_filters, cancel_async_task,
_get_async_result_internal and get_async_result), the configuration
resolution (config.py, ArynConfig.api_key and ArynConfig.aryn_url), and the
pagination engine (modelled from the spec, since response.py is not part of
the provided sources).

The HTTP transport is an external collaborator: functions that in Python
send a request and inspect the response are embedded as functions of the
completed transport response. The environment and the config file contents
are passed in explicitly, since the embedding is pure.
-/

/-- Model of a parsed JSON document, as produced by res.json in httpx. -/
inductive Json where
  | null : Json
  | bool (b : Bool) : Json
  | num (n : Int) : Json
  | str (s : String) : Json
  | arr (elems : List Json) : Json
  | obj (fields : List (String × Json)) : Json

/-- Model of a completed httpx response as the client code observes it:
the status code, the value of headers.get Content-Type (none when the
header is absent), the raw body bytes (res.content), and the result of
res.json (none when the body is not valid JSON, in which case res.json
raises). -/
structure HttpResponse where
  status_code : Nat
  contentType : Option String
  content : List Nat
  jsonBody : Option Json

/-- The exceptions the embedded code can raise: ArynSDKException carrying
the raw response (exceptions.py), a decode failure (json or pydantic
validation error from response_type applied to res.json), the
AttributeError from calling lower on None, and ValueError with a message
(config.py). -/
inductive SDKError where
  | arynSDKException (res : HttpResponse)
  | decodeFailure
  | attributeError
  | valueError (msg : String)

/-- Result envelope (Response in response.py, described by the spec as the
pairing of a decoded value with the raw transport response). -/
structure Response (α : Type) where
  raw_response : HttpResponse
  value : α

/-- Lightweight acknowledgement envelope (SimpleResponse in response.py):
holds only the raw transport response, no decoded body. -/
structure SimpleResponse where
  raw_response : HttpResponse

/-- Client._make_raw_request, lines 42-47 of client.py: the transport sends
the request; if the status code of the completed response is at least 300,
raise ArynSDKException carrying the raw response, otherwise return the
response unchanged. The embedding takes the completed transport response as
its argument. -/
def _make_raw_request (res : HttpResponse) : Except SDKError HttpResponse :=
  if 300 ≤ res.status_code then .error (.arynSDKException res)
  else .ok res

/-- Client._make_request, lines 49-56 of client.py: classify the response,
then build the envelope Response with value response_type applied to
res.json. The decode argument models the response_type constructor applied
to the parsed JSON body, including pydantic validation: none means the
decode raises. A body that is not valid JSON (jsonBody = none) means
res.json itself raises. Either failure propagates to the caller. -/
def _make_request {α : Type} (decode : Json → Option α) (res : HttpResponse) :
    Except SDKError (Response α) :=
  match _make_raw_request res with
  | .error e => .error e
  | .ok r =>
    match r.jsonBody with
    | none => .error .decodeFailure
    | some j =>
      match decode j with
      | none => .error .decodeFailure
      | some v => .ok ⟨r, v⟩

/-- Async task handle (AsyncTask in tasks.py, described by the spec data
model): the server-assigned task id plus the submission method and path,
each optional, used as client-side filters. The declared result type is
irrelevant to the addressing claims and is omitted. -/
structure AsyncTask where
  task_id : String
  method : Option String
  path : Option String

/-- The task-addressing argument of poll and cancel: either a full handle
or a bare task-id string. -/
inductive TaskRef where
  | handle (t : AsyncTask)
  | bare (task_id : String)

/-- Client._get_task_and_filters, lines 366-381 of client.py: for a handle,
the filters start as None and are set to the handle method and path exactly
when those are not None, which is the identity on optional values; for a
bare string, both filters stay None. -/
def _get_task_and_filters : TaskRef → String × Option String × Option String
  | .handle t => (t.task_id, t.method, t.path)
  | .bare tid => (tid, none, none)

/-- A request as produced by client.build_request: method, url and the
params mapping. A parameter whose value is none corresponds to passing None
for it, meaning the filter is not supplied. -/
structure BuiltRequest where
  method : String
  url : String
  params : List (String × Option String)

/-- The request built by Client.cancel_async_task, lines 390-392 of
client.py. -/
def cancel_async_task_request (task : TaskRef) : BuiltRequest :=
  let tf := _get_task_and_filters task
  ⟨"POST", "/v1/async/cancel/" ++ tf.1, [("method_filter", tf.2.1), ("path_filter", tf.2.2)]⟩

/-- The request built by Client._get_async_result_internal, lines 400-402
of client.py. -/
def get_async_result_request (task : TaskRef) : BuiltRequest :=
  let tf := _get_task_and_filters task
  ⟨"GET", "/v1/async/result/" ++ tf.1, [("method_filter", tf.2.1), ("path_filter", tf.2.2)]⟩

/-- Client.cancel_async_task, lines 387-395 of client.py, applied to the
completed transport response for the cancel request: classify through
_make_raw_request, then wrap the raw response in SimpleResponse without any
decoding. -/
def cancel_async_task (res : HttpResponse) : Except SDKError SimpleResponse :=
  match _make_raw_request res with
  | .error e => .error e
  | .ok r => .ok ⟨r⟩

/-- The three poll outcomes the source can return: Pending is a
SimpleResponse (202), Ready pairs the raw response with the decoded JSON
body (200 with JSON content type), ReadyRaw pairs it with the raw bytes
(200 with any other content type). -/
inductive PollResult where
  | pending (r : SimpleResponse)
  | ready (r : Response Json)
  | readyRaw (r : Response (List Nat))

/-- Python str.lower applied to an ASCII header value. -/
def toLower (s : String) : String :=
  s.map Char.toLower

/-- Client.get_async_result, lines 397-422 of client.py, applied to the
completed transport response for the poll request: classify through
_make_raw_request (inside _get_async_result_internal); on 200, look up the
Content-Type header (an absent header yields None, and None.lower raises
AttributeError), compare its lowering with application/json, and return
Response with either the parsed JSON body or the raw bytes; on 202 return
SimpleResponse; on any other status raise ArynSDKException. -/
def get_async_result (res : HttpResponse) : Except SDKError PollResult :=
  match _make_raw_request res with
  | .error e => .error e
  | .ok r =>
    if r.status_code = 200 then
      match r.contentType with
      | none => .error .attributeError
      | some ct =>
        if toLower ct = "application/json" then
          match r.jsonBody with
          | none => .error .decodeFailure
          | some j => .ok (.ready ⟨r, j⟩)
        else .ok (.readyRaw ⟨r, r.content⟩)
    else if r.status_code = 202 then .ok (.pending ⟨r⟩)
    else .error (.arynSDKException r)

/-- Constant _ARYN_API_KEY_ENV_VAR from config.py. -/
def _ARYN_API_KEY_ENV_VAR : String := "ARYN_API_KEY"

/-- Constant _ARYN_URL_ENV_VAR from config.py. -/
def _ARYN_URL_ENV_VAR : String := "ARYN_API_URL"

/-- Constant _DEFAULT_ARYN_URL from config.py. -/
def _DEFAULT_ARYN_URL : String := "https://api.aryn.ai"

/-- The ValueError message raised by ArynConfig.api_key, lines 34-37 of
config.py, naming the environment variable, the config file path and the
parameter. -/
def apiKeyErrorMessage (path : String) : String :=
  "Could not find an aryn api key. Checked the " ++ _ARYN_API_KEY_ENV_VAR ++
    " env var, the " ++ path ++ " config file, and the aryn_api_key parameter"

/-- The ValueError message raised by ArynConfig.aryn_url, lines 55-58 of
config.py. -/
def urlErrorMessage (path : String) : String :=
  "Could not find an aryn url. Checked the " ++ _ARYN_URL_ENV_VAR ++
    " env var, the " ++ path ++ " config file, and the aryn_url parameter"

/-- ArynConfig from config.py. The three underscore fields mirror the
Python instance attributes. The remaining fields pass in the ambient state
the Python methods read: the two environment variables (none when unset)
and the config file contents as a mapping (none when the path does not
exist). -/
structure ArynConfig where
  _aryn_config_path : String
  _aryn_api_key : Option String
  _aryn_url : Option String
  env_api_key : Option String
  env_url : Option String
  config_file : Option (List (String × String))

/-- ArynConfig.api_key, lines 24-37 of config.py: return the explicit
parameter when it is not None; otherwise the environment variable when it
is truthy (set and nonempty); otherwise, when the config file exists and
holds an aryn_token entry, that entry; otherwise raise ValueError. -/
def ArynConfig.api_key (c : ArynConfig) : Except SDKError String :=
  match c._aryn_api_key with
  | some k => .ok k
  | none =>
    if (c.env_api_key.getD "") ≠ "" then .ok (c.env_api_key.getD "")
    else
      match c.config_file with
      | some d =>
        match d.lookup "aryn_token" with
        | some tok => .ok tok
        | none => .error (.valueError (apiKeyErrorMessage c._aryn_config_path))
      | none => .error (.valueError (apiKeyErrorMessage c._aryn_config_path))

/-- ArynConfig.aryn_url, lines 39-60 of config.py: url starts as None and
is set from the explicit parameter, else from the environment variable when
truthy, else from the aryn_url entry of the config file when the file
exists (staying None when the entry is absent), and only when the file does
not exist is it set to the default; a url still None raises ValueError. -/
def ArynConfig.aryn_url (c : ArynConfig) : Except SDKError String :=
  let url : Option String :=
    match c._aryn_url with
    | some u => some u
    | none =>
      if (c.env_url.getD "") ≠ "" then some (c.env_url.getD "")
      else
        match c.config_file with
        | some d => d.lookup "aryn_url"
        | none => some _DEFAULT_ARYN_URL
  match url with
  | some u => .ok u
  | none => .error (.valueError (urlErrorMessage c._aryn_config_path))

/-- The state Client.__init__ builds before any request is sent: the
resolved Authorization header and the base url of the underlying transport
client. -/
structure Client where
  aryn_url : String
  authorization : String
  base_url : String

/-- Client.__init__, lines 29-40 of client.py: construct ArynConfig from
the aryn_api_key and aryn_url parameters, resolve the api key for the
Authorization header, resolve the base url, and construct the transport
client. No request is sent; a resolution failure propagates out of the
constructor. -/
def client_init (aryn_url : String) (aryn_api_key : Option String)
    (env_api_key env_url : Option String)
    (config_file : Option (List (String × String))) (config_path : String) :
    Except SDKError Client :=
  let config : ArynConfig :=
    ⟨config_path, aryn_api_key, some aryn_url, env_api_key, env_url, config_file⟩
  match config.api_key with
  | .error e => .error e
  | .ok k =>
    match config.aryn_url with
    | .error e => .error e
    | .ok u => .ok ⟨aryn_url, "Bearer " ++ k, u⟩

/-- Modelled from the spec: a decoded list-endpoint page (the Page of the
spec data model, produced inside PaginatedResponse in response.py, which is
not among the provided sources): the ordered items plus an optional
next-page token whose absence marks the last page. -/
structure Page (α : Type) where
  items : List α
  next_page_token : Option String

/-- Modelled from the spec: one continuation fetch of the pagination
engine (step 2 of the traversal in the spec): re-issue the request with the
new page token, await the error classifier, then decode the new page; a
decode failure propagates. The respond argument is the transport, the
decodePage argument the page decoding. -/
def fetch_next_page {α : Type} (respond : String → HttpResponse)
    (decodePage : HttpResponse → Option (Page α)) (tok : String) :
    Except SDKError (Page α) :=
  match _make_raw_request (respond tok) with
  | .error e => .error e
  | .ok r =>
    match decodePage r with
    | none => .error .decodeFailure
    | some p => .ok p

/-- Modelled from the spec: a server listing given as the chunks of items
per page. Page i holds the i-th chunk and carries a continuation token
exactly when a further page exists; the token addresses the next page. -/
def pageAt {α : Type} (chunks : List (List α)) (i : Nat) : Page α :=
  ⟨chunks.getD i [], if i + 1 < chunks.length then some (toString (i + 1)) else none⟩

/-- Modelled from the spec: the pagination engine traversal (steps 1-3 of
the spec) run to completion from the held page i, also the materialize-all
draining of the lazy sequence: yield the items of the held page in order;
when the held page carries a continuation token, fetch the next page and
continue; when it carries none, terminate. Returns the items produced and
the number of continuation fetches issued. -/
def drainFrom {α : Type} (chunks : List (List α)) (i : Nat) : List α × Nat :=
  match h : (pageAt chunks i).next_page_token with
  | none => ((pageAt chunks i).items, 0)
  | some _ =>
    have hlt : i + 1 < chunks.length := by
      by_contra hc
      simp only [pageAt, if_neg hc] at h
      exact Option.noConfusion h
    let r := drainFrom chunks (i + 1)
    ((pageAt chunks i).items ++ r.1, r.2 + 1)
termination_by chunks.length - i
decreasing_by omega

/-- Unfolding drainFrom on a page without a continuation token: the engine
terminates with the held items and issues no fetch. -/
theorem drainFrom_none {α : Type} (chunks : List (List α)) (i : Nat)
    (h : (pageAt chunks i).next_page_token = none) :
    drainFrom chunks i = ((pageAt chunks i).items, 0) := by
  rw [drainFrom]
  split
  · rfl
  · rename_i v heq
    rw [h] at heq
    exact Option.noConfusion heq

/-- Unfolding drainFrom on a page with a continuation token: the engine
yields the held items, fetches the next page and continues there. -/
theorem drainFrom_some {α : Type} (chunks : List (List α)) (i : Nat) (v : String)
    (h : (pageAt chunks i).next_page_token = some v) :
    drainFrom chunks i =
      ((pageAt chunks i).items ++ (drainFrom chunks (i + 1)).1,
        (drainFrom chunks (i + 1)).2 + 1) := by
  rw [drainFrom]
  split
  · rename_i heq
    rw [h] at heq
    exact Option.noConfusion heq
  · rfl

/-- The traversal from page i yields exactly the items of the pages from i
on, in order, and issues one continuation fetch per page after page i. -/
theorem drainFrom_eq {α : Type} (chunks : List (List α)) (i : Nat) :
    drainFrom chunks i = ((chunks.drop i).flatten, chunks.length - 1 - i) := by
  have H : ∀ n i, chunks.length - i ≤ n →
      drainFrom chunks i = ((chunks.drop i).flatten, chunks.length - 1 - i) := by
    intro n
    induction n with
    | zero =>
      intro i hi
      have hge : chunks.length ≤ i := by omega
      have h0 : (pageAt chunks i).next_page_token = none := by
        simp only [pageAt]
        exact if_neg (by omega)
      rw [drainFrom_none chunks i h0]
      simp only [pageAt]
      rw [List.getD_eq_default _ _ hge, List.drop_eq_nil_of_le hge]
      simp only [List.flatten_nil]
      congr 1
      omega
    | succ n ih =>
      intro i hi
      by_cases hlt : i + 1 < chunks.length
      · have hs : (pageAt chunks i).next_page_token = some (toString (i + 1)) := by
          simp only [pageAt]
          exact if_pos hlt
        rw [drainFrom_some chunks i _ hs, ih (i + 1) (by omega)]
        have hi2 : i < chunks.length := by omega
        rw [List.drop_eq_getElem_cons hi2]
        simp only [pageAt, List.flatten_cons]
        rw [List.getD_eq_getElem _ _ hi2]
        congr 1
        omega
      · have h0 : (pageAt chunks i).next_page_token = none := by
          simp only [pageAt]
          exact if_neg hlt
        rw [drainFrom_none chunks i h0]
        simp only [pageAt]
        by_cases hi2 : i < chunks.length
        · rw [List.getD_eq_getElem _ _ hi2, List.drop_eq_getElem_cons hi2,
            List.drop_eq_nil_of_le (by omega)]
          simp only [List.flatten_cons, List.flatten_nil, List.append_nil]
          congr 1
          omega
        · rw [List.getD_eq_default _ _ (by omega), List.drop_eq_nil_of_le (by omega)]
          simp only [List.flatten_nil]
          congr 1
          omega
  exact H (chunks.length - i) i (le_refl _)

/-- C3: for every listing with N items spread over P pages, materializing
the pagination engine yields exactly the N items in server order (the
concatenation of the page chunks), the engine issues exactly P - 1
continuation fetches, and it issues no continuation fetch from a held page
that carries no continuation token. -/
theorem pagination_materializes_all_items {α : Type} (chunks : List (List α)) :
    (drainFrom chunks 0).1 = chunks.flatten ∧
    (drainFrom chunks 0).2 = chunks.length - 1 ∧
    (∀ i, (pageAt chunks i).next_page_token = none → (drainFrom chunks i).2 = 0) := by
  refine ⟨?_, ?_, ?_⟩
  · rw [drainFrom_eq]
    simp
  · rw [drainFrom_eq]
    simp
  · intro i h
    rw [drainFrom_none chunks i h]

/-- Witness for C3 at a concrete two-page listing: the held last page
carries no token and triggers no fetch. -/
theorem pagination_materializes_all_items_witness :
    (drainFrom ([[1, 2], [3]] : List (List Nat)) 1).2 = 0 :=
  (pagination_materializes_all_items [[1, 2], [3]]).2.2 1 rfl

/-- C1: the outcome of a poll is determined exactly by the response: 202
yields Pending (a SimpleResponse with no decoded body); 200 with a JSON
content type yields Ready pairing the raw response with the parsed JSON
body; 200 with any other content type yields ReadyRaw pairing the raw
response with the raw bytes; any other status code raises ArynSDKException
carrying the raw response rather than being treated as Pending. -/
theorem get_async_result_outcomes (res : HttpResponse) :
    (res.status_code = 202 → get_async_result res = .ok (.pending ⟨res⟩)) ∧
    (res.status_code = 200 → ∀ ct j, res.contentType = some ct →
      toLower ct = "application/json" → res.jsonBody = some j →
      get_async_result res = .ok (.ready ⟨res, j⟩)) ∧
    (res.status_code = 200 → ∀ ct, res.contentType = some ct →
      toLower ct ≠ "application/json" →
      get_async_result res = .ok (.readyRaw ⟨res, res.content⟩)) ∧
    (res.status_code ≠ 200 → res.status_code ≠ 202 →
      get_async_result res = .error (.arynSDKException res)) := by
  refine ⟨?_, ?_, ?_, ?_⟩
  · intro h
    simp [get_async_result, _make_raw_request, h]
  · intro h ct j hct hlow hj
    simp [get_async_result, _make_raw_request, h, hct, hlow, hj]
  · intro h ct hct hlow
    simp [get_async_result, _make_raw_request, h, hct, hlow]
  · intro h1 h2
    by_cases h3 : 300 ≤ res.status_code
    · simp [get_async_result, _make_raw_request, h3]
    · simp [get_async_result, _make_raw_request, h1, h2, h3]

/-- Witness for C1 at a concrete 202 response. -/
theorem get_async_result_outcomes_witness :
    get_async_result ⟨202, none, [], none⟩ = .ok (.pending ⟨⟨202, none, [], none⟩⟩) :=
  (get_async_result_outcomes ⟨202, none, [], none⟩).1 rfl

/-- C2: the error classifier raises ArynSDKException carrying the raw
response exactly when the status code is at least 300, passes the response
through unchanged otherwise, and is applied to every request the client
issues: the async poll and the pagination continuation fetch both surface
the classifier failure. -/
theorem error_classifier_uniform (res : HttpResponse) :
    (300 ≤ res.status_code → _make_raw_request res = .error (.arynSDKException res)) ∧
    (res.status_code < 300 → _make_raw_request res = .ok res) ∧
    (300 ≤ res.status_code → get_async_result res = .error (.arynSDKException res)) ∧
    (∀ (respond : String → HttpResponse) (decodePage : HttpResponse → Option (Page Nat))
      (tok : String), 300 ≤ (respond tok).status_code →
      fetch_next_page respond decodePage tok = .error (.arynSDKException (respond tok))) := by
  refine ⟨?_, ?_, ?_, ?_⟩
  · intro h
    simp [_make_raw_request, h]
  · intro h
    simp only [_make_raw_request]
    rw [if_neg (by omega)]
  · intro h
    simp [get_async_result, _make_raw_request, h]
  · intro respond decodePage tok h
    simp [fetch_next_page, _make_raw_request, h]

/-- Witness for C2 at a concrete 404 response. -/
theorem error_classifier_uniform_witness :
    _make_raw_request ⟨404, none, [], none⟩ =
      .error (.arynSDKException ⟨404, none, [], none⟩) :=
  (error_classifier_uniform ⟨404, none, [], none⟩).1 (by decide)

/-- C9: a 200 poll response carrying no Content-Type header makes
get_async_result raise AttributeError (None.lower), not any of the three
task outcomes and not ArynSDKException: the 200 branch is total only when
the header is present. -/
theorem get_async_result_missing_content_type (res : HttpResponse)
    (h200 : res.status_code = 200) (hct : res.contentType = none) :
    get_async_result res = .error .attributeError := by
  simp [get_async_result, _make_raw_request, h200, hct]

/-- Witness for C9 at a concrete header-less 200 response. -/
theorem get_async_result_missing_content_type_witness :
    get_async_result ⟨200, none, [], none⟩ = .error .attributeError :=
  get_async_result_missing_content_type ⟨200, none, [], none⟩ rfl rfl

/-- C4: a handle contributes its task id and its optional method and path
as the filters, a bare task id contributes no filters, and both cases
funnel into the same request shapes: GET on /v1/async/result/ followed by
the task id, and POST on /v1/async/cancel/ followed by the task id, each
carrying method_filter and path_filter parameters whose values are exactly
the resolved filters. -/
theorem task_addressing_filters :
    (∀ t : AsyncTask, _get_task_and_filters (.handle t) = (t.task_id, t.method, t.path)) ∧
    (∀ tid : String, _get_task_and_filters (.bare tid) = (tid, none, none)) ∧
    (∀ task : TaskRef, get_async_result_request task =
      ⟨"GET", "/v1/async/result/" ++ (_get_task_and_filters task).1,
        [("method_filter", (_get_task_and_filters task).2.1),
          ("path_filter", (_get_task_and_filters task).2.2)]⟩) ∧
    (∀ task : TaskRef, cancel_async_task_request task =
      ⟨"POST", "/v1/async/cancel/" ++ (_get_task_and_filters task).1,
        [("method_filter", (_get_task_and_filters task).2.1),
          ("path_filter", (_get_task_and_filters task).2.2)]⟩) :=
  ⟨fun _ => rfl, fun _ => rfl, fun _ => rfl, fun _ => rfl⟩

/-- C8: for every task-addressing argument the cancel request is a POST to
/v1/async/cancel/ followed by the task id with the optional filters, and a
successful response is wrapped in the acknowledgement envelope
SimpleResponse, which holds only the raw response and is never decoded into
the task result type. -/
theorem cancel_returns_ack (task : TaskRef) (res : HttpResponse) :
    (cancel_async_task_request task).method = "POST" ∧
    (cancel_async_task_request task).url =
      "/v1/async/cancel/" ++ (_get_task_and_filters task).1 ∧
    (cancel_async_task_request task).params =
      [("method_filter", (_get_task_and_filters task).2.1),
        ("path_filter", (_get_task_and_filters task).2.2)] ∧
    (res.status_code < 300 → cancel_async_task res = .ok ⟨res⟩) := by
  refine ⟨rfl, rfl, rfl, ?_⟩
  intro h
  simp only [cancel_async_task, _make_raw_request]
  rw [if_neg (by omega)]

/-- Witness for C8 at a concrete 200 response. -/
theorem cancel_returns_ack_witness :
    cancel_async_task ⟨200, none, [], none⟩ = .ok ⟨⟨200, none, [], none⟩⟩ :=
  (cancel_returns_ack (.bare "t1") ⟨200, none, [], none⟩).2.2.2 (by decide)

/-- C7: on a successful response, _make_request decodes the JSON body with
the expected shape and pairs it with the raw response in the envelope; a
body that is not valid JSON or that does not match the expected shape makes
the decode failure propagate, never a partial or default envelope. -/
theorem make_request_decodes (α : Type) (decode : Json → Option α) (res : HttpResponse)
    (hok : res.status_code < 300) :
    (∀ j v, res.jsonBody = some j → decode j = some v →
      _make_request decode res = .ok ⟨res, v⟩) ∧
    (∀ j, res.jsonBody = some j → decode j = none →
      _make_request decode res = .error .decodeFailure) ∧
    (res.jsonBody = none → _make_request decode res = .error .decodeFailure) := by
  have hraw : _make_raw_request res = .ok res := by
    simp only [_make_raw_request]
    rw [if_neg (by omega)]
  refine ⟨?_, ?_, ?_⟩
  · intro j v hj hd
    simp [_make_request, hraw, hj, hd]
  · intro j hj hd
    simp [_make_request, hraw, hj, hd]
  · intro hj
    simp [_make_request, hraw, hj]

/-- Witness for C7: a concrete 200 response whose body decodes. -/
theorem make_request_decodes_witness :
    _make_request (fun j => match j with | Json.num n => some n | _ => none)
      ⟨200, some "application/json", [], some (Json.num 7)⟩ =
      .ok ⟨⟨200, some "application/json", [], some (Json.num 7)⟩, 7⟩ :=
  (make_request_decodes Int _ ⟨200, some "application/json", [], some (Json.num 7)⟩
    (by decide)).1 (Json.num 7) 7 rfl rfl

/-- When the parameter is None, the environment variable is unset or empty,
and the config file is absent or lacks an aryn_token entry, api_key raises
the ValueError naming all three sources. -/
theorem api_key_failure_helper (c : ArynConfig)
    (hp : c._aryn_api_key = none) (he : c.env_api_key.getD "" = "")
    (hf : c.config_file = none ∨
      ∃ d, c.config_file = some d ∧ d.lookup "aryn_token" = none) :
    c.api_key = .error (.valueError (apiKeyErrorMessage c._aryn_config_path)) := by
  simp only [ArynConfig.api_key, hp]
  rw [if_neg (by simp [he])]
  rcases hf with h | ⟨d, hd, hl⟩
  · rw [h]
  · simp [hd, hl]

/-- C5: api_key resolution returns, in priority order, the explicit
parameter when it is not None, else the environment variable when set and
nonempty, else the aryn_token entry of the config file when present; when
all three sources fail it raises the ValueError whose message names the
environment variable, the config file path and the parameter, and client
construction propagates that error from the constructor, before any request
exists. -/
theorem api_key_resolution (c : ArynConfig) :
    (∀ k, c._aryn_api_key = some k → c.api_key = .ok k) ∧
    (c._aryn_api_key = none → ∀ v, c.env_api_key = some v → v ≠ "" →
      c.api_key = .ok v) ∧
    (c._aryn_api_key = none → c.env_api_key.getD "" = "" →
      ∀ d tok, c.config_file = some d → d.lookup "aryn_token" = some tok →
      c.api_key = .ok tok) ∧
    (c._aryn_api_key = none → c.env_api_key.getD "" = "" →
      (c.config_file = none ∨
        ∃ d, c.config_file = some d ∧ d.lookup "aryn_token" = none) →
      c.api_key = .error (.valueError (apiKeyErrorMessage c._aryn_config_path)) ∧
      ∀ url, client_init url c._aryn_api_key c.env_api_key c.env_url
          c.config_file c._aryn_config_path =
        .error (.valueError (apiKeyErrorMessage c._aryn_config_path))) := by
  refine ⟨?_, ?_, ?_, ?_⟩
  · intro k hk
    simp [ArynConfig.api_key, hk]
  · intro hp v hv hne
    simp only [ArynConfig.api_key, hp]
    rw [hv]
    rw [if_pos (by simpa using hne)]
    rfl
  · intro hp he d tok hd hl
    simp only [ArynConfig.api_key, hp]
    rw [if_neg (by simp [he])]
    simp [hd, hl]
  · intro hp he hf
    refine ⟨api_key_failure_helper c hp he hf, ?_⟩
    intro url
    have hk := api_key_failure_helper
      ⟨c._aryn_config_path, c._aryn_api_key, some url, c.env_api_key,
        c.env_url, c.config_file⟩ hp he hf
    simp only [client_init]
    rw [hk]

/-- Witness for C5: all three sources absent yields the configuration
error. -/
theorem api_key_resolution_witness :
    ArynConfig.api_key ⟨"/root/.aryn/config.yaml", none, none, none, none, none⟩ =
      .error (.valueError (apiKeyErrorMessage "/root/.aryn/config.yaml")) :=
  ((api_key_resolution
    ⟨"/root/.aryn/config.yaml", none, none, none, none, none⟩).2.2.2
      rfl rfl (Or.inl rfl)).1

/-- C10: an empty string is treated asymmetrically by api_key: an empty
explicit parameter is returned as the key (only None falls through), while
an empty environment variable fails the truthiness test and resolution
behaves exactly as if the variable were unset, falling through to the
config file. -/
theorem api_key_empty_string_asymmetry :
    (∀ (p : String) (u e eu : Option String) (f : Option (List (String × String))),
      ArynConfig.api_key ⟨p, some "", u, e, eu, f⟩ = .ok "") ∧
    (∀ (p : String) (u eu : Option String) (f : Option (List (String × String))),
      ArynConfig.api_key ⟨p, none, u, some "", eu, f⟩ =
        ArynConfig.api_key ⟨p, none, u, none, eu, f⟩) :=
  ⟨fun _ _ _ _ _ => rfl, fun _ _ _ _ => rfl⟩

/-- Counterexample for C6: with no explicit parameter and no environment
variable, but a config file that exists and contains no aryn_url entry,
aryn_url raises the ValueError instead of returning the default
https://api.aryn.ai, so the default is not applied whenever no source
supplies a value. -/
theorem aryn_url_default_counterexample :
    ArynConfig.aryn_url
        ⟨"/root/.aryn/config.yaml", none, none, none, none, some []⟩ =
      .error (.valueError (urlErrorMessage "/root/.aryn/config.yaml")) ∧
    ¬ ArynConfig.aryn_url
        ⟨"/root/.aryn/config.yaml", none, none, none, none, some []⟩ =
      .ok "https://api.aryn.ai" := by
  refine ⟨rfl, ?_⟩
  intro h
  exact Except.noConfusion h

/-- C6 amended: aryn_url checks the explicit parameter, then the
environment variable, then the aryn_url entry of the config file, in that
order, and defaults to https://api.aryn.ai only when the first two sources
are absent and the config file does not exist; when the file exists but
holds no aryn_url entry, resolution raises the ValueError instead of
defaulting. -/
theorem aryn_url_resolution_amended (c : ArynConfig) :
    (∀ u, c._aryn_url = some u → c.aryn_url = .ok u) ∧
    (c._aryn_url = none → ∀ v, c.env_url = some v → v ≠ "" →
      c.aryn_url = .ok v) ∧
    (c._aryn_url = none → c.env_url.getD "" = "" →
      ∀ d u, c.config_file = some d → d.lookup "aryn_url" = some u →
      c.aryn_url = .ok u) ∧
    (c._aryn_url = none → c.env_url.getD "" = "" → c.config_file = none →
      c.aryn_url = .ok "https://api.aryn.ai") ∧
    (c._aryn_url = none → c.env_url.getD "" = "" →
      ∀ d, c.config_file = some d → d.lookup "aryn_url" = none →
      c.aryn_url = .error (.valueError (urlErrorMessage c._aryn_config_path))) := by
  refine ⟨?_, ?_, ?_, ?_, ?_⟩
  · intro u hu
    simp [ArynConfig.aryn_url, hu]
  · intro hp v hv hne
    simp only [ArynConfig.aryn_url, hp]
    rw [hv]
    rw [if_pos (by simpa using hne)]
    rfl
  · intro hp he d u hd hl
    simp only [ArynConfig.aryn_url, hp]
    rw [if_neg (by simp [he])]
    simp [hd, hl]
  · intro hp he hf
    simp only [ArynConfig.aryn_url, hp]
    rw [if_neg (by simp [he]), hf]
    rfl
  · intro hp he d hd hl
    simp only [ArynConfig.aryn_url, hp]
    rw [if_neg (by simp [he])]
    simp [hd, hl]

/-- Witness for the amended C6: sources absent and config file absent
yields the default. -/
theorem aryn_url_resolution_amended_witness :
    ArynConfig.aryn_url ⟨"/root/.aryn/config.yaml", none, none, none, none, none⟩ =
      .ok "https://api.aryn.ai" :=
  (aryn_url_resolution_amended
    ⟨"/root/.aryn/config.yaml", none, none, none, none, none⟩).2.2.2.1 rfl rfl rfl
